import Mathlib

/-!
Shallow embedding of the Argo Nexus client orchestration layer
(frontend/src/App.js together with the Sidebar, DataPreview and
MapComponent components), with theorems settling the specification claims
about bounds editing, the submit/WebSocket session state machine, result
preview and artifact delivery.

Modelling conventions:
* JavaScript numbers are modelled as rationals; none of the claims at
  issue depends on binary floating-point rounding.
* JavaScript strings are Lean strings; the String methods the source uses
  (split with a one-character separator, trim, parseFloat) are
  re-implemented structurally over the character list so every definition
  evaluates by kernel reduction.
* Stateful React code becomes explicit state passing: component state is a
  structure and each handler is a function from state plus the event
  payload to state.  Externally visible actions (channel opens and closes,
  sent frames, alerts, file downloads) are recorded in the state as
  counters and lists.
-/

namespace Argo

/-- Split a character list at every occurrence of the separator character,
modelling the JavaScript split method with a one-character separator, so
the empty string splits to one empty piece. -/
def splitChars (sep : Char) : List Char → List (List Char)
  | [] => [[]]
  | c :: rest =>
      match splitChars sep rest with
      | [] => [[]]
      | piece :: pieces =>
          if c = sep then [] :: piece :: pieces else (c :: piece) :: pieces

/-- JavaScript split with a one-character separator, on Lean strings. -/
def jsSplit (sep : Char) (s : String) : List String :=
  (splitChars sep s.data).map List.asString

/-- JavaScript trim: strip whitespace from both ends of a string. -/
def jsTrim (s : String) : String :=
  (((s.data.dropWhile Char.isWhitespace).reverse.dropWhile
      Char.isWhitespace).reverse).asString

/-- Numeric value of a digit list, most significant digit first. -/
def digitsToNat (l : List Char) : Nat :=
  l.foldl (fun a c => a * 10 + (c.toNat - 48)) 0

/-- Ten to an integer power, as a rational. -/
def pow10 (e : Int) : ℚ :=
  if 0 ≤ e then (10 : ℚ) ^ e.toNat else 1 / (10 : ℚ) ^ (-e).toNat

/-- Assemble a parsed float value from its sign, its mantissa digits, the
number of digits after the decimal point and the exponent. -/
def floatOfParts (sign : ℚ) (mantDigits : List Char) (fracLen : Nat)
    (eexp : Int) : ℚ :=
  sign * ((digitsToNat mantDigits : ℚ) / (10 : ℚ) ^ fracLen) * pow10 eexp

/-- JavaScript parseFloat on the numeric literals a number input can hold:
skip leading whitespace, then parse the longest prefix of the form
sign, digits, an optional fraction and an optional exponent, requiring at
least one digit in the mantissa; none models the NaN result.  (The
Infinity literal accepted by the real parseFloat cannot occur in this
program and is not modelled.) -/
def parseFloat (s : String) : Option ℚ :=
  let l0 := s.data.dropWhile Char.isWhitespace
  let sign : ℚ :=
    match l0 with
    | '-' :: _ => -1
    | _ => 1
  let l1 : List Char :=
    match l0 with
    | '-' :: r => r
    | '+' :: r => r
    | _ => l0
  let ip := l1.takeWhile Char.isDigit
  let l2 := l1.dropWhile Char.isDigit
  let fp : List Char :=
    match l2 with
    | '.' :: r => r.takeWhile Char.isDigit
    | _ => []
  let l3 : List Char :=
    match l2 with
    | '.' :: r => r.dropWhile Char.isDigit
    | _ => l2
  if ip.isEmpty && fp.isEmpty then none
  else
    let eexp : Int :=
      match l3 with
      | 'e' :: r =>
          match r with
          | '-' :: r2 =>
              if (r2.takeWhile Char.isDigit).isEmpty then 0
              else -(digitsToNat (r2.takeWhile Char.isDigit) : Int)
          | '+' :: r2 =>
              if (r2.takeWhile Char.isDigit).isEmpty then 0
              else (digitsToNat (r2.takeWhile Char.isDigit) : Int)
          | _ =>
              if (r.takeWhile Char.isDigit).isEmpty then 0
              else (digitsToNat (r.takeWhile Char.isDigit) : Int)
      | 'E' :: r =>
          match r with
          | '-' :: r2 =>
              if (r2.takeWhile Char.isDigit).isEmpty then 0
              else -(digitsToNat (r2.takeWhile Char.isDigit) : Int)
          | '+' :: r2 =>
              if (r2.takeWhile Char.isDigit).isEmpty then 0
              else (digitsToNat (r2.takeWhile Char.isDigit) : Int)
          | _ =>
              if (r.takeWhile Char.isDigit).isEmpty then 0
              else (digitsToNat (r.takeWhile Char.isDigit) : Int)
      | _ => 0
    some (floatOfParts sign (ip ++ fp) fp.length eexp)

/-- A stored bounds-field value: absent (the JavaScript undefined of a key
never written), the empty-string sentinel written for a cleared field, or
a number. -/
inductive BVal
  | undef
  | unsetStr
  | num (q : ℚ)
deriving DecidableEq

/-- The bounds object of the App state: north, south, east, west. -/
structure Bounds where
  north : BVal
  south : BVal
  east : BVal
  west : BVal
deriving DecidableEq

/-- The four bounds field names the Sidebar inputs edit. -/
inductive BField
  | north
  | south
  | east
  | west
deriving DecidableEq

/-- Read one field of a bounds object. -/
def getB (b : Bounds) : BField → BVal
  | .north => b.north
  | .south => b.south
  | .east => b.east
  | .west => b.west

/-- Write one field of a bounds object, leaving the others unchanged. -/
def setB (b : Bounds) : BField → BVal → Bounds
  | .north, v => { b with north := v }
  | .south, v => { b with south := v }
  | .east, v => { b with east := v }
  | .west, v => { b with west := v }

/-- Object spread of a possibly-null bounds value: spreading null yields
an object with every key absent. -/
def spreadBounds : Option Bounds → Bounds
  | none => ⟨.undef, .undef, .undef, .undef⟩
  | some b => b

/-- The Sidebar handleBoundsChange handler: the bounds value published
through onBoundsChange for one field edit, or none when the handler
returns without publishing (a non-empty input whose parseFloat is NaN). -/
def handleBoundsChange (bounds : Option Bounds) (fieldName : BField)
    (value : String) : Option Bounds :=
  if value = "" then some (setB (spreadBounds bounds) fieldName .unsetStr)
  else
    match parseFloat value with
    | some q => some (setB (spreadBounds bounds) fieldName (.num q))
    | none => none

/-- The App bounds state after one Sidebar field edit: setBounds runs
exactly when the Sidebar publishes. -/
def boundsAfterFieldEdit (bounds : Option Bounds) (fieldName : BField)
    (value : String) : Option Bounds :=
  match handleBoundsChange bounds fieldName value with
  | some nb => some nb
  | none => bounds

/-- The numeric-validity check of MapComponent and of the specification:
all four fields numeric with north above south and east above west. -/
def validBoundB (b : Bounds) : Bool :=
  match b.north, b.south, b.east, b.west with
  | .num n, .num s, .num e, .num w => decide (s < n) && decide (w < e)
  | _, _, _, _ => false

/-- A query-parameter number field holds its initial number or the raw
string written by a form edit (React input values are strings). -/
inductive NumStr
  | num (q : ℚ)
  | str (s : String)
deriving DecidableEq

/-- The App query-parameters state.  varNames embeds the source field
called variables, a reserved word here; it serializes under the key
variables. -/
structure Params where
  startDate : String
  endDate : String
  minDepth : NumStr
  maxDepth : NumStr
  type : String
  varNames : List String
deriving DecidableEq

/-- The initial query parameters of App. -/
def initParams : Params :=
  { startDate := "2020-01-01", endDate := "2024-12-31",
    minDepth := .num 0, maxDepth := .num 2000,
    type := "core", varNames := ["Temp", "Psal"] }

/-- The params fields edited through the Sidebar inputs. -/
inductive ParamField
  | startDate
  | endDate
  | minDepth
  | maxDepth
deriving DecidableEq

/-- The Sidebar handleChange handler: merge one edited field, as its raw
string value, into params. -/
def handleChange (p : Params) : ParamField → String → Params
  | .startDate, v => { p with startDate := v }
  | .endDate, v => { p with endDate := v }
  | .minDepth, v => { p with minDepth := .str v }
  | .maxDepth, v => { p with maxDepth := .str v }

/-- The Sidebar handleTypeChange handler. -/
def handleTypeChange (p : Params) (ty : String) : Params :=
  { p with type := ty }

/-- JSON values, as produced by JSON.stringify. -/
inductive J
  | str (s : String)
  | num (q : ℚ)
  | arr (l : List J)
  | obj (l : List (String × J))

/-- JSON.stringify of one bounds field: an absent key is omitted entirely,
the cleared-field sentinel serializes as the empty string, a number as a
number. -/
def boundsEntry (k : String) : BVal → List (String × J)
  | .undef => []
  | .unsetStr => [(k, .str "")]
  | .num q => [(k, .num q)]

/-- JSON.stringify of the bounds object, keys in insertion order. -/
def serializeBounds (b : Bounds) : J :=
  .obj (boundsEntry "north" b.north ++ boundsEntry "south" b.south ++
        boundsEntry "east" b.east ++ boundsEntry "west" b.west)

/-- JSON.stringify of a params number field. -/
def serializeNumStr : NumStr → J
  | .num q => .num q
  | .str s => .str s

/-- JSON.stringify of the params object. -/
def serializeParams (p : Params) : J :=
  .obj [("startDate", .str p.startDate), ("endDate", .str p.endDate),
        ("minDepth", serializeNumStr p.minDepth),
        ("maxDepth", serializeNumStr p.maxDepth),
        ("type", .str p.type),
        ("variables", .arr (p.varNames.map .str))]

/-- The one outbound frame of a session: JSON.stringify of the object
holding bounds and params, sent from the onopen handler. -/
def serializeRequest (b : Bounds) (p : Params) : J :=
  .obj [("bounds", serializeBounds b), ("params", serializeParams p)]

/-- App-level state for the submit path, instrumented with counters for
the transport calls made while handling submits: channelOpens counts
WebSocket constructions, channelCloses counts close calls made from the
submit handler (the source submit handler makes none). -/
structure World where
  bounds : Option Bounds
  params : Params
  loading : Bool
  previewData : Option String
  logs : List String
  alerts : List String
  channelOpens : Nat
  channelCloses : Nat
deriving DecidableEq

/-- The App handleSubmit function: alert and return when bounds is null;
otherwise reset the panel state, seed the log terminal with the
initializing line and construct a fresh WebSocket.  No other check is
made and no previously opened channel is closed. -/
def handleSubmit (w : World) : World :=
  match w.bounds with
  | none =>
      { w with alerts := w.alerts ++ ["Please select an area on the map first"] }
  | some _ =>
      { w with loading := true, previewData := none,
               logs := ["Initializing connection..."],
               channelOpens := w.channelOpens + 1 }

/-- The transport events a session can receive: the open notification,
the three service message kinds, a transport error, and the close
notification. -/
inductive WsEvent
  | onOpen
  | logMsg (m : String)
  | errorMsg (m : String)
  | completeMsg (csv : String) (filename : Option String)
  | transportError
  | onClose
deriving DecidableEq

/-- Which terminal handler branch ran, recorded to state the abstract
JobState of the specification. -/
inductive Outcome
  | success (csv : String) (filename : Option String)
  | serviceError (m : String)
  | transportFail
deriving DecidableEq

/-- One triggered file download: name, MIME type and content string. -/
structure Download where
  name : String
  mime : String
  content : String
deriving DecidableEq

/-- One WebSocket session as handleSubmit sets it up: the bounds and
params captured by the handlers, the App state those handlers mutate, and
the externally visible actions (sent frames, close calls, alerts,
downloads).  chanOpen is the transport-side flag that the channel has not
been closed. -/
structure Session where
  reqBounds : Bounds
  reqParams : Params
  chanOpen : Bool
  opened : Bool
  loading : Bool
  logs : List String
  previewData : Option String
  sent : List J
  closes : Nat
  alerts : List String
  downloads : List Download
  outcome : Option Outcome

/-- The session state right after handleSubmit constructs the WebSocket:
loading on, the single initializing log line, nothing sent yet. -/
def startSession (b : Bounds) (p : Params) : Session :=
  { reqBounds := b, reqParams := p, chanOpen := true, opened := false,
    loading := true, logs := ["Initializing connection..."],
    previewData := none, sent := [], closes := 0, alerts := [],
    downloads := [], outcome := none }

/-- setAttribute of the download name: JavaScript coerces the absent
filename field to the string undefined. -/
def filenameAttr : Option String → String
  | some f => f
  | none => "undefined"

/-- The WebSocket handlers installed by handleSubmit, as one step
function; the transport delivers no event on a closed channel.  onopen
sends the serialized request; a log message appends to the log terminal;
an error message alerts with the Error: prefix, stops loading and closes
the channel; a complete message triggers the download of the BOM-prefixed
payload, shows the preview, stops loading and closes the channel; onerror
alerts the generic failure message and stops loading; no close handler is
installed, so the close notification changes nothing but the transport
flag. -/
def stepSession (s : Session) (e : WsEvent) : Session :=
  if s.chanOpen = false then s
  else
    match e with
    | .onOpen =>
        { s with opened := true,
                 sent := s.sent ++ [serializeRequest s.reqBounds s.reqParams] }
    | .logMsg m => { s with logs := s.logs ++ [m] }
    | .errorMsg m =>
        { s with alerts := s.alerts ++ ["Error: " ++ m], loading := false,
                 closes := s.closes + 1, chanOpen := false,
                 outcome := some (.serviceError m) }
    | .completeMsg csv fn =>
        { s with downloads := s.downloads ++
                   [{ name := filenameAttr fn,
                      mime := "text/csv;charset=utf-8;",
                      content := "\uFEFF" ++ csv }],
                 previewData := some csv, loading := false,
                 closes := s.closes + 1, chanOpen := false,
                 outcome := some (.success csv fn) }
    | .transportError =>
        { s with alerts := s.alerts ++ ["Connection failed."],
                 loading := false, outcome := some .transportFail }
    | .onClose => { s with chanOpen := false }

/-- Run a session over a list of delivered transport events. -/
def runSession (s : Session) : List WsEvent → Session
  | [] => s
  | e :: es => runSession (stepSession s e) es

/-- The abstract job state of the specification. -/
inductive JobState
  | Idle
  | Connecting
  | Running (logs : List String)
  | Succeeded (csv : String) (filename : Option String)
  | Failed (m : String)
deriving DecidableEq

/-- The abstraction of a session to the specification job state: the
terminal outcome if one was reached, else Running once the channel
opened, else Connecting. -/
def jobState (s : Session) : JobState :=
  match s.outcome with
  | some (.success c f) => .Succeeded c f
  | some (.serviceError m) => .Failed m
  | some .transportFail => .Failed "Connection failed."
  | none => if s.opened then .Running s.logs else .Connecting

/-- The preview table: a header row and the displayed data rows. -/
structure Preview where
  headers : List String
  dataRows : List (List String)
deriving DecidableEq

/-- The DataPreview component: no table for a falsy payload; otherwise
trim the payload, split it into lines, comma-split the first line as the
header row and comma-split at most the next ten lines as the data rows. -/
def dataPreview (csvData : String) : Option Preview :=
  if csvData = "" then none
  else
    let rows := jsSplit '\n' (jsTrim csvData)
    some { headers := jsSplit ',' (rows.headD ""),
           dataRows := ((rows.drop 1).take 10).map (jsSplit ',') }

/-- The preview contract written from the amended claim words, to be
compared with the dataPreview code: no table for the empty payload,
otherwise trim, split into lines, the first line comma-split is the
header and at most the next ten lines comma-split are the data rows in
input order. -/
def contractPreview (rawText : String) : Option Preview :=
  if rawText = "" then none
  else
    match jsSplit '\n' (jsTrim rawText) with
    | [] => none
    | h :: t =>
        some { headers := jsSplit ',' h,
               dataRows := (t.take 10).map (jsSplit ',') }

/-- The outbound-request shape asserted by the specification claim:
exactly the four numeric bounds keys and exactly the five params keys,
with numeric depths and a core-or-bio type.  The date-format side
conditions of the claim are omitted: dropping conditions only weakens the
shape, and the weakened shape is already refuted. -/
def claimedRequestShape (j : J) : Prop :=
  ∃ n s e w sd ed mnd mxd ty,
    (ty = "core" ∨ ty = "bio") ∧
    j = J.obj
      [("bounds", J.obj [("north", J.num n), ("south", J.num s),
                         ("east", J.num e), ("west", J.num w)]),
       ("params", J.obj [("startDate", J.str sd), ("endDate", J.str ed),
                         ("minDepth", J.num mnd), ("maxDepth", J.num mxd),
                         ("type", J.str ty)])]

/-- The fallback download name the specification claims when the service
supplies none: synthesized from the category and the current timestamp
(the pattern of the legacy HTTP client). -/
def synthesizedName (category timestamp : String) : String :=
  "argo_" ++ category ++ "_data_" ++ timestamp ++ ".csv"

/-- The Sidebar field value expression, bounds north-or-other-field
or-else the empty string: undefined (null bounds or an absent key), the
cleared sentinel and the number 0 are all falsy and display as the empty
string; any other number displays as itself. -/
inductive DisplayVal
  | empty
  | numv (q : ℚ)
deriving DecidableEq

/-- What one Sidebar bounds input displays for the current App bounds. -/
def displayField (bounds : Option Bounds) (f : BField) : DisplayVal :=
  match bounds with
  | none => .empty
  | some b =>
      match getB b f with
      | .undef => .empty
      | .unsetStr => .empty
      | .num q => if q = 0 then .empty else .numv q

/-- A numerically valid bound: north 10 above south 0, east 20 above
west 5. -/
def bValid : Bounds := ⟨.num 10, .num 0, .num 20, .num 5⟩

/-- A present but numerically invalid bound: north 0 below south 10. -/
def bInvalid : Bounds := ⟨.num 0, .num 10, .num 20, .num 5⟩

/-- A pristine world with no map selection. -/
def wNone : World := ⟨none, initParams, false, none, [], [], 0, 0⟩

/-- A pristine world whose map selection is the invalid bound. -/
def wInvalid : World := ⟨some bInvalid, initParams, false, none, [], [], 0, 0⟩

/-- A pristine world whose map selection is the valid bound. -/
def wValid : World := ⟨some bValid, initParams, false, none, [], [], 0, 0⟩

/-- A session that has opened its channel and received one log line. -/
def runningSession : Session :=
  runSession (startSession bValid initParams) [.onOpen, .logMsg "step 1"]

/-- Once a session channel is closed, no further event is delivered, so
the session state is final. -/
theorem runSession_of_closed (s : Session) (hc : s.chanOpen = false) :
    ∀ es, runSession s es = s := by
  intro es
  induction es with
  | nil => rfl
  | cons e es ih =>
      show runSession (stepSession s e) es = s
      rw [show stepSession s e = s from by simp [stepSession, hc]]
      exact ih

/-- Every step other than the open notification leaves the sent-frame
list unchanged. -/
theorem sent_stepSession (s : Session) (e : WsEvent)
    (h : e ≠ WsEvent.onOpen) : (stepSession s e).sent = s.sent := by
  cases hc : s.chanOpen <;> cases e <;>
    first
    | exact absurd rfl h
    | simp [stepSession, hc]

/-- A trace with no open notification sends nothing. -/
theorem sent_runSession (s : Session) (es : List WsEvent)
    (h : ∀ e ∈ es, e ≠ WsEvent.onOpen) : (runSession s es).sent = s.sent := by
  induction es generalizing s with
  | nil => rfl
  | cons e es ih =>
      show (runSession (stepSession s e) es).sent = s.sent
      rw [ih (stepSession s e) (fun x hx => h x (List.mem_cons_of_mem _ hx)),
          sent_stepSession s e (h e (List.mem_cons_self _ _))]

/-- Claim C1, counterexample: submitting with a present but numerically
invalid bound (north 0 below south 10) is not rejected: the submit opens
a channel (transport call count 1, not 0), raises no validation alert and
turns the loading indication on. -/
theorem C1_counterexample :
    validBoundB bInvalid = false ∧
    wInvalid.channelOpens = 0 ∧
    (handleSubmit wInvalid).channelOpens = 1 ∧
    (handleSubmit wInvalid).alerts = [] ∧
    (handleSubmit wInvalid).loading = true := by decide

/-- Claim C1, amended: only an absent (null) bound is rejected at submit:
in that case the handler only appends the validation alert, so no channel
is opened and the job state stays Idle; whenever any bound object is
present, valid or not, the submit opens a channel. -/
theorem C1_theorem :
    (∀ w : World, w.bounds = none →
      handleSubmit w =
        { w with alerts := w.alerts ++ ["Please select an area on the map first"] }) ∧
    (∀ w : World, w.bounds ≠ none →
      (handleSubmit w).channelOpens = w.channelOpens + 1) := by
  constructor
  · intro w h
    simp [handleSubmit, h]
  · intro w h
    cases hb : w.bounds with
    | none => exact absurd hb h
    | some b => simp [handleSubmit, hb]

/-- Claim C1, witness: the amended theorem applied to the pristine
world without a selection and to the world with the valid bound. -/
theorem C1_witness :
    handleSubmit wNone =
      { wNone with alerts := ["Please select an area on the map first"] } ∧
    (handleSubmit wValid).channelOpens = wValid.channelOpens + 1 :=
  ⟨C1_theorem.1 wNone rfl, C1_theorem.2 wValid (by decide)⟩

/-- Claim C2, counterexample: with a valid bound selected, a first submit
leaves a session in flight (loading); a second submit issued while that
session is live closes nothing (0 close calls) and opens a second
channel, so two channels for the one orchestrator are open at once. -/
theorem C2_counterexample :
    (handleSubmit wValid).loading = true ∧
    (handleSubmit (handleSubmit wValid)).channelCloses = 0 ∧
    (handleSubmit (handleSubmit wValid)).channelOpens = 2 := by decide

/-- Claim C2, amended: a submit with a bound present never closes a stale
channel: the close count is unchanged while one more channel is opened,
so a resubmit during a live session yields two concurrently open channels
instead of tearing the prior one down. -/
theorem C2_theorem (w : World) (b : Bounds) (h : w.bounds = some b) :
    (handleSubmit w).channelCloses = w.channelCloses ∧
    (handleSubmit w).channelOpens = w.channelOpens + 1 := by
  simp [handleSubmit, h]

/-- Claim C2, witness: the amended theorem applied to the world holding
the valid bound. -/
theorem C2_witness :
    (handleSubmit wValid).channelCloses = wValid.channelCloses ∧
    (handleSubmit wValid).channelOpens = wValid.channelOpens + 1 :=
  C2_theorem wValid bValid rfl

/-- Claim C3, counterexample: a session receiving log a, log b, log c,
complete ends with four log lines, not three: the submit seeds the logs
with the initializing line and channel open does not reset them, so the
state on open is not Running with an empty logs sequence. -/
theorem C3_counterexample :
    (runSession (startSession bValid initParams)
        [.onOpen, .logMsg "a", .logMsg "b", .logMsg "c",
         .completeMsg "csv" (some "out.csv")]).logs
      = ["Initializing connection...", "a", "b", "c"] := by decide

/-- Claim C3, amended: the submit initializes the logs to the single
initializing entry and channel open does not clear it; each progress
event on a live channel appends its message at the tail, in arrival
order, with no reordering, deduplication or cap; on the trace log a,
log b, log c, complete the final logs are the initial entry followed by
a, b, c, length four, and the final state is Succeeded. -/
theorem C3_theorem :
    (∀ (b : Bounds) (p : Params),
      (startSession b p).logs = ["Initializing connection..."]) ∧
    (∀ (s : Session) (m : String), s.chanOpen = true →
      (stepSession s (.logMsg m)).logs = s.logs ++ [m]) ∧
    (∀ (b : Bounds) (p : Params),
      jobState (runSession (startSession b p)
          [.onOpen, .logMsg "a", .logMsg "b", .logMsg "c",
           .completeMsg "csv" (some "out.csv")])
        = JobState.Succeeded "csv" (some "out.csv") ∧
      (runSession (startSession b p)
          [.onOpen, .logMsg "a", .logMsg "b", .logMsg "c",
           .completeMsg "csv" (some "out.csv")]).logs
        = ["Initializing connection...", "a", "b", "c"]) := by
  refine ⟨fun b p => rfl, fun s m hc => ?_, fun b p => ⟨rfl, rfl⟩⟩
  simp [stepSession, hc]

/-- Claim C3, witness: the append part of the amended theorem applied to
the live session that has already received one log line. -/
theorem C3_witness :
    (stepSession runningSession (WsEvent.logMsg "x")).logs
      = runningSession.logs ++ ["x"] :=
  C3_theorem.2.1 runningSession "x" rfl

/-- Claim C6: on a live, not-yet-terminal session, an error event yields
the Failed state carrying the service message verbatim (the surfaced
alert is that message behind the Error: label), clears the loading
indication, performs exactly one more channel close, and is terminal:
every later event is ignored, so nothing is retried and no further close
or open happens. -/
theorem C6_theorem (s : Session) (m : String) (hc : s.chanOpen = true)
    (_ho : s.outcome = none) :
    jobState (stepSession s (.errorMsg m)) = JobState.Failed m ∧
    (stepSession s (.errorMsg m)).alerts = s.alerts ++ ["Error: " ++ m] ∧
    (stepSession s (.errorMsg m)).loading = false ∧
    (stepSession s (.errorMsg m)).closes = s.closes + 1 ∧
    (∀ es, runSession (stepSession s (.errorMsg m)) es
      = stepSession s (.errorMsg m)) := by
  refine ⟨?_, ?_, ?_, ?_, ?_⟩
  · simp [stepSession, hc, jobState]
  · simp [stepSession, hc]
  · simp [stepSession, hc]
  · simp [stepSession, hc]
  · exact runSession_of_closed _ (by simp [stepSession, hc])

/-- Claim C6, witness: the theorem applied to the live session after one
log line, with the error message boom. -/
theorem C6_witness :
    jobState (stepSession runningSession (WsEvent.errorMsg "boom"))
      = JobState.Failed "boom" ∧
    (stepSession runningSession (WsEvent.errorMsg "boom")).alerts
      = ["Error: boom"] ∧
    (stepSession runningSession (WsEvent.errorMsg "boom")).loading = false ∧
    (stepSession runningSession (WsEvent.errorMsg "boom")).closes = 1 :=
  ⟨(C6_theorem runningSession "boom" rfl rfl).1,
   (C6_theorem runningSession "boom" rfl rfl).2.1,
   (C6_theorem runningSession "boom" rfl rfl).2.2.1,
   (C6_theorem runningSession "boom" rfl rfl).2.2.2.1⟩

/-- Claim C7, counterexample: a session whose channel closes without an
error event and without any terminal message (trace: open, close) is left
with the loading indication still on and no Failed state and no alert:
the UI is stuck in the loading state. -/
theorem C7_counterexample :
    (runSession (startSession bValid initParams)
        [.onOpen, .onClose]).loading = true ∧
    jobState (runSession (startSession bValid initParams)
        [.onOpen, .onClose])
      = JobState.Running ["Initializing connection..."] ∧
    (runSession (startSession bValid initParams)
        [.onOpen, .onClose]).alerts = [] := by decide

/-- Claim C7, amended: a transport error event on a live session clears
the loading indication and surfaces the generic Connection failed.
message, reaching the Failed state; but no close handler is installed, so
a close notification changes nothing except the transport flag — in
particular a channel that closes without an error event and without a
terminal message leaves the loading indication, logs and alerts exactly
as they were, stuck in loading if it was loading. -/
theorem C7_theorem (s : Session) (hc : s.chanOpen = true) :
    (stepSession s .transportError).loading = false ∧
    (stepSession s .transportError).alerts
      = s.alerts ++ ["Connection failed."] ∧
    jobState (stepSession s .transportError)
      = JobState.Failed "Connection failed." ∧
    (stepSession s .onClose).loading = s.loading ∧
    (stepSession s .onClose).logs = s.logs ∧
    (stepSession s .onClose).alerts = s.alerts ∧
    (stepSession s .onClose).closes = s.closes := by
  refine ⟨?_, ?_, ?_, ?_, ?_, ?_, ?_⟩ <;> simp [stepSession, hc, jobState]

/-- Claim C7, witness: the amended theorem applied to the live session
after one log line. -/
theorem C7_witness :
    (stepSession runningSession WsEvent.transportError).loading = false ∧
    (stepSession runningSession WsEvent.transportError).alerts
      = ["Connection failed."] ∧
    (stepSession runningSession WsEvent.onClose).loading = true :=
  ⟨(C7_theorem runningSession rfl).1,
   (C7_theorem runningSession rfl).2.1,
   (C7_theorem runningSession rfl).2.2.2.1⟩

/-- Claim C4, counterexample: the request actually serialized (here with
the valid bound, the default dates and a user-edited minimum depth of 50)
is not of the claimed shape: its params object carries a sixth key,
variables, and the edited depth is serialized as the string 50, not a
number. -/
theorem C4_counterexample :
    ¬ claimedRequestShape
        (serializeRequest bValid (handleChange initParams .minDepth "50")) := by
  rintro ⟨n, s, e, w, sd, ed, mnd, mxd, ty, -, hj⟩
  simp [serializeRequest, serializeParams, serializeBounds, boundsEntry,
        handleChange, initParams, serializeNumStr, bValid] at hj

/-- Claim C4, amended: exactly one outbound frame is sent per session,
immediately on channel open (a trace starting with the open notification
and containing no further open sends exactly that one frame); the frame
serializes the captured bounds and params objects, where params carries
the six keys startDate, endDate, minDepth, maxDepth, type and variables,
and a depth field the user has edited is serialized as the raw input
string rather than a number. -/
theorem C4_theorem :
    (∀ (b : Bounds) (p : Params) (es : List WsEvent),
      (∀ e ∈ es, e ≠ WsEvent.onOpen) →
      (runSession (startSession b p) (WsEvent.onOpen :: es)).sent
        = [serializeRequest b p]) ∧
    serializeParams (handleChange initParams .minDepth "50")
      = J.obj [("startDate", J.str "2020-01-01"),
               ("endDate", J.str "2024-12-31"),
               ("minDepth", J.str "50"), ("maxDepth", J.num 2000),
               ("type", J.str "core"),
               ("variables", J.arr [J.str "Temp", J.str "Psal"])] := by
  constructor
  · intro b p es h
    show (runSession (stepSession (startSession b p) .onOpen) es).sent
      = [serializeRequest b p]
    rw [sent_runSession _ es h]
    rfl
  · rfl

/-- Claim C4, witness: the sent-once part of the amended theorem applied
to the valid bound, the initial params and a trace with one later log
event. -/
theorem C4_witness :
    (runSession (startSession bValid initParams)
        (WsEvent.onOpen :: [WsEvent.logMsg "a"])).sent
      = [serializeRequest bValid initParams] :=
  C4_theorem.1 bValid initParams [WsEvent.logMsg "a"] (by decide)

/-- Claim C5, counterexample: editing north with the unparseable text abc
leaves the field at its old number 10 and publishes nothing: the field is
not stored as the unset sentinel. -/
theorem C5_counterexample :
    handleBoundsChange (some bValid) BField.north "abc" = none ∧
    boundsAfterFieldEdit (some bValid) BField.north "abc" = some bValid ∧
    bValid.north = BVal.num 10 := by decide

/-- Claim C5, amended: an empty edit stores the unset sentinel for
exactly the named field (never the number 0) and republishes; a non-empty
edit that fails to parse as a float is ignored entirely, publishing
nothing and leaving the bound unchanged; a successful parse republishes
with exactly the named field set to the parsed number; and writing one
field never changes the other three. -/
theorem C5_theorem (bounds : Option Bounds) (f : BField) (v : String) :
    (v = "" → handleBoundsChange bounds f v
      = some (setB (spreadBounds bounds) f BVal.unsetStr)) ∧
    (v ≠ "" → parseFloat v = none →
      handleBoundsChange bounds f v = none ∧
      boundsAfterFieldEdit bounds f v = bounds) ∧
    (∀ q : ℚ, v ≠ "" → parseFloat v = some q →
      handleBoundsChange bounds f v
        = some (setB (spreadBounds bounds) f (BVal.num q))) ∧
    (∀ (b : Bounds) (x : BVal) (g : BField), g ≠ f →
      getB (setB b f x) g = getB b g) := by
  refine ⟨fun hv => ?_, fun hv hp => ?_, fun q hv hp => ?_,
          fun b x g hg => ?_⟩
  · simp [handleBoundsChange, hv]
  · constructor <;> simp [handleBoundsChange, boundsAfterFieldEdit, hv, hp]
  · simp [handleBoundsChange, hv, hp]
  · cases f <;> cases g <;> simp_all [getB, setB]

/-- Claim C5, witness: the amended theorem applied to the valid bound,
for the empty edit of north and for a successful parse of 2 into
south. -/
theorem C5_witness :
    handleBoundsChange (some bValid) BField.north ""
      = some (setB (spreadBounds (some bValid)) BField.north BVal.unsetStr) ∧
    handleBoundsChange (some bValid) BField.south "2"
      = some (setB (spreadBounds (some bValid)) BField.south (BVal.num 2)) := by
  have hp : parseFloat "2" = some 2 := by
    have h1 : parseFloat "2" = some (floatOfParts 1 ['2'] 0 0) := rfl
    have hd : digitsToNat ['2'] = 2 := by decide
    rw [h1]
    simp [floatOfParts, hd, pow10]
  exact ⟨(C5_theorem (some bValid) BField.north "").1 rfl,
         (C5_theorem (some bValid) BField.south "2").2.2.1 2 (by decide) hp⟩

/-- The split of a string never produces the empty list of pieces. -/
theorem splitChars_ne_nil (sep : Char) (l : List Char) :
    splitChars sep l ≠ [] := by
  induction l with
  | nil => simp [splitChars]
  | cons c rest ih =>
      cases h : splitChars sep rest with
      | nil => exact absurd h ih
      | cons piece pieces =>
          rw [splitChars, h]
          show ¬(if c = sep then [] :: piece :: pieces
                 else (c :: piece) :: pieces) = []
          split <;> simp

/-- jsSplit never returns the empty list. -/
theorem jsSplit_ne_nil (sep : Char) (s : String) : jsSplit sep s ≠ [] := by
  intro h
  exact splitChars_ne_nil sep s.data (List.map_eq_nil_iff.mp h)

/-- The payload whose header row is A,B,C followed by fifteen data
rows. -/
def bigPayload : String :=
  "A,B,C\nr1,a1,b1\nr2,a2,b2\nr3,a3,b3\nr4,a4,b4\nr5,a5,b5\nr6,a6,b6\nr7,a7,b7\nr8,a8,b8\nr9,a9,b9\nr10,a10,b10\nr11,a11,b11\nr12,a12,b12\nr13,a13,b13\nr14,a14,b14\nr15,a15,b15"

/-- Claim C8, counterexample: on the empty payload the preview code
renders no table at all — the component returns before parsing — rather
than a table with a one-empty-string header and zero data rows. -/
theorem C8_counterexample :
    dataPreview "" ≠ some { headers := [""], dataRows := [] } := by decide

set_option maxRecDepth 8000 in
/-- Claim C8, amended: the preview agrees everywhere with the contract:
no table for the empty payload; otherwise the payload is trimmed of
surrounding whitespace, split on line breaks, the first line comma-split
is the header and at most the next ten lines comma-split are the data
rows in input order; on the fifteen-row payload this yields the three
headers A, B, C and exactly the first ten data rows in input order. -/
theorem C8_theorem :
    (∀ s : String, dataPreview s = contractPreview s) ∧
    dataPreview "" = none ∧
    (dataPreview bigPayload).map Preview.headers = some ["A", "B", "C"] ∧
    (dataPreview bigPayload).map (fun p => p.dataRows.length) = some 10 ∧
    (dataPreview bigPayload).map Preview.dataRows
      = some [["r1", "a1", "b1"], ["r2", "a2", "b2"], ["r3", "a3", "b3"],
              ["r4", "a4", "b4"], ["r5", "a5", "b5"], ["r6", "a6", "b6"],
              ["r7", "a7", "b7"], ["r8", "a8", "b8"], ["r9", "a9", "b9"],
              ["r10", "a10", "b10"]] := by
  refine ⟨fun s => ?_, by decide, by decide, by decide, by decide⟩
  by_cases hs : s = ""
  · simp [dataPreview, contractPreview, hs]
  · rw [dataPreview, contractPreview]
    simp only [if_neg hs]
    cases hr : jsSplit '\n' (jsTrim s) with
    | nil => exact absurd hr (jsSplit_ne_nil _ _)
    | cons h t => simp [hr]

/-- Claim C9, counterexample: completing with no filename field triggers
a download under the literal name undefined (the attribute coercion of an
absent field); that name is never one synthesized from the category and a
timestamp, so no fallback synthesis exists. -/
theorem C9_counterexample :
    (stepSession runningSession (WsEvent.completeMsg "A,B" none)).downloads
      = [{ name := "undefined", mime := "text/csv;charset=utf-8;",
           content := "\uFEFFA,B" }] ∧
    (∀ ts : String, filenameAttr none ≠ synthesizedName "core" ts) := by
  constructor
  · rfl
  · intro ts h
    have hl := congrArg String.length h
    simp only [synthesizedName, String.length_append, filenameAttr] at hl
    rw [show "undefined".length = 9 from rfl,
        show "argo_".length = 5 from rfl,
        show "core".length = 4 from rfl,
        show "_data_".length = 6 from rfl,
        show ".csv".length = 4 from rfl] at hl
    omega

/-- Claim C9, amended: on a live session, a complete message appends
exactly one download whose content is the byte-order mark followed by the
payload verbatim, with MIME type text/csv in UTF-8, and whose name is
always the service filename field, coerced to the string undefined when
the field is absent (no synthesis from category and timestamp); the
preview is set to the payload, loading stops, one close call is made and
the final state is Succeeded. -/
theorem C9_theorem (s : Session) (csv : String) (fn : Option String)
    (hc : s.chanOpen = true) :
    (stepSession s (.completeMsg csv fn)).downloads
      = s.downloads ++ [{ name := filenameAttr fn,
                          mime := "text/csv;charset=utf-8;",
                          content := "\uFEFF" ++ csv }] ∧
    (stepSession s (.completeMsg csv fn)).previewData = some csv ∧
    (stepSession s (.completeMsg csv fn)).loading = false ∧
    (stepSession s (.completeMsg csv fn)).closes = s.closes + 1 ∧
    jobState (stepSession s (.completeMsg csv fn))
      = JobState.Succeeded csv fn := by
  refine ⟨?_, ?_, ?_, ?_, ?_⟩ <;> simp [stepSession, hc, jobState]

/-- Claim C9, witness: the amended theorem applied to the live session
with a service-supplied filename. -/
theorem C9_witness :
    (stepSession runningSession
        (WsEvent.completeMsg "A,B\n1,2" (some "argo.csv"))).downloads
      = [{ name := "argo.csv", mime := "text/csv;charset=utf-8;",
           content := "\uFEFFA,B\n1,2" }] ∧
    jobState (stepSession runningSession
        (WsEvent.completeMsg "A,B\n1,2" (some "argo.csv")))
      = JobState.Succeeded "A,B\n1,2" (some "argo.csv") :=
  ⟨(C9_theorem runningSession "A,B\n1,2" (some "argo.csv") rfl).1,
   (C9_theorem runningSession "A,B\n1,2" (some "argo.csv") rfl).2.2.2.2⟩

/-- A bounds object whose north field holds the number 0. -/
def bZero : Bounds := ⟨.num 0, .num (-5), .num 10, .num 1⟩

/-- Claim C10: any bounds field storing exactly the number 0 renders as
the empty string in its Sidebar input — the or-else-empty display treats
0 as falsy — exactly as the unset sentinel for that field renders, so a
legitimate zero-degree boundary is indistinguishable from an unset field
at the interface. -/
theorem C10_theorem (b : Bounds) (f : BField) (h : getB b f = BVal.num 0) :
    displayField (some b) f = DisplayVal.empty ∧
    displayField (some (setB b f BVal.unsetStr)) f = DisplayVal.empty := by
  constructor
  · simp [displayField, h]
  · have hg : getB (setB b f BVal.unsetStr) f = BVal.unsetStr := by
      cases f <;> simp [getB, setB]
    simp [displayField, hg]

/-- Claim C10, witness: the theorem applied to the bound whose north
field is the number 0. -/
theorem C10_witness :
    displayField (some bZero) BField.north = DisplayVal.empty ∧
    displayField (some (setB bZero BField.north BVal.unsetStr)) BField.north
      = DisplayVal.empty :=
  C10_theorem bZero BField.north rfl

end Argo
